import Mathlib

/-!
Shallow embedding of the contact-form system of this repository:
the serverless submission handler (`api/contact.js`) and the browser
form client (the fetch-based submit handler).  JavaScript
string-or-undefined values are modelled as `Option String`, JS
truthiness of such values by `truthy`, and the JS `v || d` default
idiom by `jsOr`.  The two sequential outbound calls to the EmailJS
HTTP API are modelled by an oracle `Nat → CallOutcome` giving the
outcome of the n-th `fetch`; the handler consults the oracle in call
order, so the position of a payload in the returned call list is its
temporal position.
-/

/-- JS truthiness of a string-or-undefined value: `undefined` and `""`
are falsy, every other string is truthy. -/
def truthy : Option String → Bool
  | none => false
  | some s => !(s == "")

/-- The JS expression `v || d` for a string-or-undefined `v` and a
string default `d`. -/
def jsOr (v : Option String) (d : String) : String :=
  match v with
  | none => d
  | some s => if s == "" then d else s

/-- JS `String.prototype.trim()`: strip leading and trailing
whitespace, modelled executably on the character list. -/
def jsTrim (s : String) : String :=
  ⟨((s.data.dropWhile Char.isWhitespace).reverse.dropWhile
      Char.isWhitespace).reverse⟩

/-- The parsed request body `{name, email, subject, message}`; absent
keys are `none`. -/
structure ReqBody where
  name : Option String
  email : Option String
  subject : Option String
  message : Option String
deriving Repr, DecidableEq

/-- The empty object `{}` that `req.body || {}` falls back to. -/
def ReqBody.empty : ReqBody := ⟨none, none, none, none⟩

/-- The five EmailJS environment variables read from `process.env`;
absent variables are `none`. -/
structure Env where
  EMAILJS_SERVICE_ID : Option String
  EMAILJS_NOTIFICATION_TEMPLATE_ID : Option String
  EMAILJS_AUTOREPLY_TEMPLATE_ID : Option String
  EMAILJS_PUBLIC_KEY : Option String
  EMAILJS_PRIVATE_KEY : Option String
deriving Repr, DecidableEq

/-- The `template_params` object of an EmailJS send payload; keys that
a given call does not set are `none`. -/
structure TemplateParams where
  from_name : Option String
  from_email : Option String
  reply_to : Option String
  subject : Option String
  message : Option String
  auto_reply_html : Option String
deriving Repr, DecidableEq

/-- The JSON payload posted to `https://api.emailjs.com/api/v1.0/email/send`. -/
structure EmailPayload where
  service_id : Option String
  template_id : Option String
  user_id : Option String
  accessToken : Option String
  template_params : TemplateParams
deriving Repr, DecidableEq

/-- Outcome of one outbound `fetch` to the EmailJS API: either an HTTP
response (status and body text) or a transport failure (the rejection
message). -/
inductive CallOutcome where
  | reply (status : Nat) (text : String)
  | network (msg : String)
deriving Repr, DecidableEq

/-- `Response.ok` of the Fetch API: status in the range 200-299. -/
def respOk (status : Nat) : Bool :=
  decide (200 ≤ status) && decide (status < 300)

/-- The error object thrown by `sendEmail` on failure: `message`, and
`responseText` when the failure was a non-success HTTP response. -/
structure EmailErr where
  message : String
  responseText : Option String
deriving Repr, DecidableEq

/-- The value returned by `sendEmail` on success. -/
structure EmailOk where
  status : Nat
  text : String
deriving Repr, DecidableEq

/-- `sendEmail` of `api/contact.js`: reads the response text, throws
`EmailJS <status>: <text>` when `!response.ok`, otherwise returns
`{status, text}`; a transport failure propagates the fetch rejection. -/
def sendEmailResult : CallOutcome → Except EmailErr EmailOk
  | .network msg => .error ⟨msg, none⟩
  | .reply st tx =>
    if respOk st then .ok ⟨st, tx⟩
    else .error ⟨"EmailJS " ++ toString st ++ ": " ++ tx, some tx⟩

/-- True when the outbound call fails: non-success HTTP status from
the provider, or transport failure. -/
def callFails : CallOutcome → Bool
  | .reply st _ => !respOk st
  | .network _ => true

/-- Response bodies produced by the handler. -/
inductive RespBody where
  | empty
  | jsonError (error : String)
  | jsonErrorDetails (error : String) (details : String)
  | jsonSuccess (success : Bool)
deriving Repr, DecidableEq

/-- An HTTP response of the handler: status code and JSON body. -/
structure Response where
  status : Nat
  body : RespBody
deriving Repr, DecidableEq
def autoReplyChunk0 : String :=
  "<!DOCTYPE html>
<html lang=\"en\">
<head>
  <meta charset=\"UTF-8\" />
  <meta name=\"viewport\" content=\"width=device-width, initial-scale=1.0\" />
</head>
<body style=\"margin:0;padding:0;font-family:\x27Segoe UI\x27,Tahoma,Geneva,Verdana,sans-serif;background:#f0f4f8;\">
  <table width=\"100%\" cellpadding=\"0\" cellspacing=\"0\" style=\"background:#f0f4f8;padding:40px 16px;\">
    <tr>
      <td align=\"center\">
        <table width=\"600\" cellpadding=\"0\" cellspacing=\"0\" style=\"max-width:600px;width:100%;background:#ffffff;border-radius:20px;overflow:hidden;box-shadow:0 8px 40px rgba(0,0,0,0.12);\">
          <tr>
            <td style=\"background:linear-gradient(135deg,#001f3f 0%,#003d7a 60%,#0057a8 100%);padding:40px 32px;text-align:center;\">
              <div style=\"display:inline-block;width:64px;height:64px;background:rgba(255,255,255,0.15);border-radius:50%;line-height:64px;font-size:26px;font-weight:800;color:#ffffff;margin-bottom:18px;border:2px solid rgba(255,255,255,0.3);\">BM</div>
              <h1 style=\"margin:0 0 6px;color:#ffffff;font-size:26px;font-weight:700;\">Message Received!</h1>
              <p style=\"margin:0;color:rgba(255,255,255,0.8);font-size:15px;\">I\x27ll be in touch with you soon, "

def autoReplyChunk1 : String :=
  ".</p>
            </td>
          </tr>
          <tr>
            <td style=\"padding:36px 32px;\">
              <p style=\"margin:0 0 20px;color:#1a1a2e;font-size:16px;line-height:1.6;\">Hi <strong>"

def autoReplyChunk2 : String :=
  "</strong>,</p>
              <p style=\"margin:0 0 20px;color:#4a5568;font-size:15px;line-height:1.7;\">
                Thank you for reaching out regarding <strong style=\"color:#003d7a;\">\""

def autoReplyChunk3 : String :=
  "\"</strong>.
                I\x27ve received your message and will get back to you within <strong>24-48 hours</strong>.
              </p>
              <div style=\"border-top:2px solid #e8edf5;margin:28px 0;\"></div>
              <div style=\"background:#f7f9fc;border-left:4px solid #003d7a;border-radius:0 10px 10px 0;padding:20px 22px;margin-bottom:28px;\">
                <p style=\"margin:0 0 8px;color:#003d7a;font-size:13px;font-weight:700;text-transform:uppercase;letter-spacing:0.8px;\">What happens next</p>
                <p style=\"margin:0;color:#4a5568;font-size:14px;line-height:1.7;\">
                  I review every message personally. Expect a reply shortly. If it\x27s urgent, feel free to reach me directly on WhatsApp.
                </p>
              </div>
              <div style=\"text-align:center;margin-bottom:32px;\">
                <a href=\"https://betsamukuba.vercel.app/\" style=\"display:inline-block;background:linear-gradient(135deg,#001f3f,#003d7a);color:#ffffff;text-decoration:none;padding:14px 36px;border-radius:50px;font-size:15px;font-weight:600;\">
                  View My Portfolio →
                </a>
              </div>
              <div style=\"border-top:2px solid #e8edf5;margin:28px 0;\"></div>
              <p style=\"margin:0 0 18px;text-align:center;color:#4a5568;font-size:14px;font-weight:600;text-transform:uppercase;letter-spacing:0.8px;\">Connect with me</p>
              <table width=\"100%\" cellpadding=\"0\" cellspacing=\"0\">
                <tr>
                  <td align=\"center\">
                    <table cellpadding=\"0\" cellspacing=\"0\">
                      <tr>
                        <td style=\"padding:0 10px;\">
                          <a href=\"https://linkedin.com/in/betsaleel-mukuba\" target=\"_blank\" style=\"text-decoration:none;\">
                            <div style=\"width:52px;height:52px;background:#0077b5;border-radius:50%;text-align:center;line-height:52px;\">
                              <img src=\"https://cdn-icons-png.flaticon.com/512/174/174857.png\" width=\"26\" height=\"26\" alt=\"LinkedIn\" style=\"vertical-align:middle;\" />
                            </div>
                            <p style=\"margin:6px 0 0;text-align:center;color:#0077b5;font-size:11px;font-weight:600;\">LinkedIn</p>
                          </a>
                        </td>
                        <td style=\"padding:0 10px;\">
                          <a href=\"https://wa.me/260969508654\" target=\"_blank\" style=\"text-decoration:none;\">
                            <div style=\"width:52px;height:52px;background:#25d366;border-radius:50%;text-align:center;line-height:52px;\">
                              <img src=\"https://cdn-icons-png.flaticon.com/512/220/220236.png\" width=\"26\" height=\"26\" alt=\"WhatsApp\" style=\"vertical-align:middle;\" />
                            </div>
                            <p style=\"margin:6px 0 0;text-align:center;color:#25d366;font-size:11px;font-weight:600;\">WhatsApp</p>
                          </a>
                        </td>
                        <td style=\"padding:0 10px;\">
                          <a href=\"https://facebook.com/betsa.mukuba\" target=\"_blank\" style=\"text-decoration:none;\">
                            <div style=\"width:52px;height:52px;background:#1877f2;border-radius:50%;text-align:center;line-height:52px;\">
                              <img src=\"https://cdn-icons-png.flaticon.com/512/733/733547.png\" width=\"26\" height=\"26\" alt=\"Facebook\" style=\"vertical-align:middle;\" />
                            </div>
                            <p style=\"margin:6px 0 0;text-align:center;color:#1877f2;font-size:11px;font-weight:600;\">Facebook</p>
                          </a>
                        </td>
                      </tr>
                    </table>
                  </td>
                </tr>
              </table>
            </td>
          </tr>
          <tr>
            <td style=\"background:#f7f9fc;padding:24px 32px;text-align:center;border-top:2px solid #e8edf5;\">
              <p style=\"margin:0 0 4px;color:#718096;font-size:13px;\">Best regards,</p>
              <p style=\"margin:0 0 2px;color:#001f3f;font-size:18px;font-weight:700;\">Betsaleel Mukuba</p>
              <p style=\"margin:0 0 14px;color:#718096;font-size:12px;\">Frontend Developer & Web Specialist · Lusaka, Zambia</p>
              <p style=\"margin:0;color:#a0aec0;font-size:11px;\">© 2026 Betsaleel Mukuba · This is an automated reply.</p>
            </td>
          </tr>
        </table>
      </td>
    </tr>
  </table>
</body>
</html>"

/-- `buildAutoReplyHtml(name, subject)` of `api/contact.js`: the JS
template literal with interpolation points `name`, `name`,
`displaySubject` where `displaySubject = subject || 'your message'`;
the surrounding text is the literal chunks above. -/
def buildAutoReplyHtml (name : String) (subject : Option String) : String :=
  let displaySubject := jsOr subject "your message"
  autoReplyChunk0 ++ name ++ autoReplyChunk1 ++ name ++ autoReplyChunk2
    ++ displaySubject ++ autoReplyChunk3

/-- The payload of the first outbound call (owner notification), as
built inline in the handler. -/
def notifPayload (env : Env) (b : ReqBody) : EmailPayload :=
  { service_id := env.EMAILJS_SERVICE_ID
    template_id := env.EMAILJS_NOTIFICATION_TEMPLATE_ID
    user_id := env.EMAILJS_PUBLIC_KEY
    accessToken := env.EMAILJS_PRIVATE_KEY
    template_params :=
      { from_name := b.name
        from_email := b.email
        reply_to := b.email
        subject := some (jsOr b.subject "(No subject)")
        message := b.message
        auto_reply_html := none } }

/-- The payload of the second outbound call (visitor auto-reply), as
built inline in the handler. -/
def replyPayload (env : Env) (b : ReqBody) : EmailPayload :=
  { service_id := env.EMAILJS_SERVICE_ID
    template_id := env.EMAILJS_AUTOREPLY_TEMPLATE_ID
    user_id := env.EMAILJS_PUBLIC_KEY
    accessToken := env.EMAILJS_PRIVATE_KEY
    template_params :=
      { from_name := b.name
        from_email := none
        reply_to := b.email
        subject := some (jsOr b.subject "your message")
        message := none
        auto_reply_html := some (buildAutoReplyHtml (b.name.getD "") b.subject) } }

/-- The generic 500 body returned from the catch block of the handler
(the `details` field carries `err.message`). -/
def sendFailureResponse (e : EmailErr) : Response :=
  ⟨500, .jsonErrorDetails "Failed to send email. Please try again." e.message⟩

/-- The handler `module.exports` of `api/contact.js`, shallowly
embedded.  Inputs: the environment, the request method, the request
body (`none` models a missing `req.body`), and the oracle giving the
outcome of each outbound `fetch` in call order.  Output: the HTTP
response and the list of outbound EmailJS payloads actually issued,
in temporal order.  Straight-line translation of the source:
OPTIONS preflight, method check, `req.body || {}` destructuring,
required-field check, environment check (which tests only the service
id, public key and private key), then the two awaited `sendEmail`
calls with the catch block mapping any failure to a 500. -/
def handler (env : Env) (method : String) (body : Option ReqBody)
    (oracle : Nat → CallOutcome) : Response × List EmailPayload :=
  if method == "OPTIONS" then (⟨200, .empty⟩, [])
  else if !(method == "POST") then (⟨405, .jsonError "Method Not Allowed"⟩, [])
  else
    let b := body.getD ReqBody.empty
    if !truthy b.name || !truthy b.email || !truthy b.message then
      (⟨400, .jsonError "Name, email and message are required."⟩, [])
    else if !truthy env.EMAILJS_SERVICE_ID || !truthy env.EMAILJS_PUBLIC_KEY
        || !truthy env.EMAILJS_PRIVATE_KEY then
      (⟨500, .jsonError "Server misconfiguration — missing environment variables."⟩, [])
    else
      match sendEmailResult (oracle 0) with
      | .error e => (sendFailureResponse e, [notifPayload env b])
      | .ok _ =>
        match sendEmailResult (oracle 1) with
        | .error e => (sendFailureResponse e, [notifPayload env b, replyPayload env b])
        | .ok _ => (⟨200, .jsonSuccess true⟩, [notifPayload env b, replyPayload env b])

/-- A character admitted by the character class `[^\s@]` of the email
regex: not whitespace and not `@`. -/
def isEmailChar (c : Char) : Bool :=
  !c.isWhitespace && !(c == '@')

/-- Matching of the anchored regex `^[^\s@]+@[^\s@]+\.[^\s@]+$` on a
character list, by searching for the position `i` of the `@` and the
position `j` of the `.` that splits domain from tld: at least one
admitted character before the `@`, between `@` and `.`, and after the
`.`, and every character outside positions `i` and `j` admitted. -/
def emailCharsMatch (cs : List Char) : Bool :=
  (List.range cs.length).any fun i =>
    (List.range cs.length).any fun j =>
      decide (1 ≤ i) && decide (i + 2 ≤ j) && decide (j + 2 ≤ cs.length)
        && (cs.getD i ' ' == '@') && (cs.getD j ' ' == '.')
        && (cs.take i).all isEmailChar
        && ((cs.drop (i + 1)).take (j - (i + 1))).all isEmailChar
        && (cs.drop (j + 1)).all isEmailChar

/-- `emailRegex.test(s)` for the client regex
`/^[^\s@]+@[^\s@]+\.[^\s@]+$/`. -/
def emailRegexTest (s : String) : Bool :=
  emailCharsMatch s.data

/-- Modelled from the spec: the `local@domain.tld` shape in the spec's
words — one or more non-whitespace/non-`@` characters, an `@`, one or
more non-whitespace/non-`@` characters, a `.`, one or more
non-whitespace/non-`@` characters. -/
def EmailShape (s : String) : Prop :=
  ∃ a b c : List Char,
    s.data = a ++ '@' :: (b ++ '.' :: c) ∧
    a ≠ [] ∧ b ≠ [] ∧ c ≠ [] ∧
    ∀ ch ∈ a ++ b ++ c, ¬ch.isWhitespace ∧ ch ≠ '@'

/-- Raw values of the four form inputs at submit time. -/
structure FormFields where
  name : String
  email : String
  subject : String
  message : String
deriving Repr, DecidableEq

/-- The JSON payload `{name, email, subject, message}` the client
posts; the structure has exactly these four keys. -/
structure SubmitPayload where
  name : String
  email : String
  subject : String
  message : String
deriving Repr, DecidableEq

/-- A network request issued by the client. -/
structure ClientRequest where
  url : String
  method : String
  contentType : String
  payload : SubmitPayload
deriving Repr, DecidableEq

/-- A toast notification: message text and kind. -/
structure Toast where
  message : String
  kind : String
deriving Repr, DecidableEq

/-- State of the submit control: visible label (`innerHTML`),
`disabled` flag, inline `background` style. -/
structure BtnState where
  label : String
  disabled : Bool
  background : String
deriving Repr, DecidableEq

/-- `data` parsed from the handler response body: `success` models
the truthiness of `data.success`, `error` the string-or-undefined
`data.error`. -/
structure RespData where
  success : Bool
  error : Option String
deriving Repr, DecidableEq

/-- Outcome of the client's `fetch('/api/contact', ...)`: a response
with its `ok` flag and parsed JSON data, or a rejection (network
failure or unparsable body), which lands in the catch block. -/
inductive ServerOutcome where
  | reply (ok : Bool) (data : RespData)
  | network
deriving Repr, DecidableEq

/-- Final observable state after one run of the client submit handler
(the synchronous part, up to and including handling of the response):
network requests issued, toasts shown, submit-control state, whether
`contactForm.reset()` ran, and whether the 3-second timer that resets
the form and restores the control was scheduled. -/
structure ClientResult where
  requests : List ClientRequest
  toasts : List Toast
  btn : BtnState
  formReset : Bool
  pendingResetTimer : Bool
deriving Repr, DecidableEq

/-- The `Sending...` label put on the submit control while in flight. -/
def sendingLabel : String :=
  "<i class=\"fas fa-spinner fa-spin\"></i> Sending..."

/-- The label put on the submit control on success. -/
def sentLabel : String :=
  "<i class=\"fas fa-check\"></i> Message Sent!"

/-- The green gradient set on the submit control on success. -/
def sentBackground : String :=
  "linear-gradient(135deg, #27ae60, #2ecc71)"

/-- The `contactForm` submit handler of the fetch-based client,
shallowly embedded.  Inputs: the raw form field values, the original
state of the submit control, and the outcome of the `fetch` (consulted
only if validation passes).  Straight-line translation of the source:
trim the four fields, reject empty required fields, reject an email
failing the regex, otherwise disable the control, show the sending
label, post the JSON payload, and branch on the response: success
shows the sent label and schedules the 3-second reset timer; a
failure body or non-ok status restores the control immediately and
shows the server error (or a generic fallback); a rejected fetch
restores the control immediately and shows the connectivity toast. -/
def clientSubmit (f : FormFields) (orig : BtnState) (outcome : ServerOutcome) :
    ClientResult :=
  let name := jsTrim f.name
  let email := jsTrim f.email
  let subject := jsTrim f.subject
  let message := jsTrim f.message
  if name == "" || email == "" || message == "" then
    { requests := [], toasts := [⟨"Please fill in all required fields.", "error"⟩]
      btn := orig, formReset := false, pendingResetTimer := false }
  else if !emailRegexTest email then
    { requests := [], toasts := [⟨"Please enter a valid email address.", "error"⟩]
      btn := orig, formReset := false, pendingResetTimer := false }
  else
    let req : ClientRequest :=
      ⟨"/api/contact", "POST", "application/json", ⟨name, email, subject, message⟩⟩
    match outcome with
    | .network =>
      { requests := [req]
        toasts := [⟨"Could not reach the server. Please check your connection.", "error"⟩]
        btn := { label := orig.label, disabled := false, background := orig.background }
        formReset := false, pendingResetTimer := false }
    | .reply ok data =>
      if ok && data.success then
        { requests := [req]
          toasts := [⟨"Message sent! Check your inbox for a confirmation email.", "success"⟩]
          btn := { label := sentLabel, disabled := true, background := sentBackground }
          formReset := false, pendingResetTimer := true }
      else
        { requests := [req]
          toasts := [⟨jsOr data.error "Something went wrong. Please try again.", "error"⟩]
          btn := { label := orig.label, disabled := false, background := orig.background }
          formReset := false, pendingResetTimer := false }

/-- A fully populated environment (all five variables present). -/
def envFull : Env :=
  ⟨some "svc", some "tplNotif", some "tplReply", some "pub", some "prv"⟩

/-- An environment missing only the notification template id. -/
def envNoNotifTpl : Env :=
  ⟨some "svc", none, some "tplReply", some "pub", some "prv"⟩

/-- An oracle under which every outbound call succeeds with HTTP 200. -/
def okOracle : Nat → CallOutcome := fun _ => .reply 200 "OK"

/-- An oracle under which every outbound call is rejected by the
provider with HTTP 400. -/
def rejectOracle : Nat → CallOutcome := fun _ => .reply 400 "bad request"

/-- A complete valid request body. -/
def bodyValid : ReqBody := ⟨some "Jo", some "jo@x.com", some "Hello", some "Hi"⟩

/-- The spec example body with an empty subject. -/
def bodyJo : ReqBody := ⟨some "Jo", some "jo@x.com", some "", some "Hi"⟩

/-- The spec example body with an empty name. -/
def bodyMissingName : ReqBody := ⟨some "", some "jo@x.com", none, some "Hi"⟩

/-- A body that is non-empty in all required fields yet not fully
valid: whitespace-only name, pattern-invalid email. -/
def bodyNotFullyValid : ReqBody := ⟨some " ", some "notanemail", none, some "Hi"⟩

/-- True when the client-side submission failed: the fetch rejected,
or the response is not (`ok` and `data.success`). -/
def submitFailed : ServerOutcome → Bool
  | .network => true
  | .reply ok data => !(ok && data.success)

theorem isEmailChar_iff (ch : Char) :
    isEmailChar ch = true ↔ ¬ch.isWhitespace ∧ ch ≠ '@' := by
  simp [isEmailChar, and_comm]

theorem getD_append_length (l₁ l₂ : List Char) (x d : Char) :
    (l₁ ++ x :: l₂).getD l₁.length d = x := by
  induction l₁ with
  | nil => rfl
  | cons h t ih => simpa using ih

theorem take_length_append (l₁ l₂ : List Char) :
    (l₁ ++ l₂).take l₁.length = l₁ := by
  induction l₁ with
  | nil => rfl
  | cons h t ih => simp [ih]

theorem drop_length_append (l₁ l₂ : List Char) :
    (l₁ ++ l₂).drop l₁.length = l₂ := by
  induction l₁ with
  | nil => rfl
  | cons h t ih => simp [ih]

theorem getD_decomp (cs : List Char) (i : Nat) (d : Char) (h : i < cs.length) :
    cs = cs.take i ++ cs.getD i d :: cs.drop (i + 1) := by
  induction cs generalizing i with
  | nil => simp at h
  | cons x t ih =>
    cases i with
    | zero => rfl
    | succ n =>
      have h2 : n < t.length := by simpa using h
      simp only [List.take_succ_cons, List.getD_cons_succ, List.drop_succ_cons,
        List.cons_append]
      rw [← ih n h2]

theorem getD_drop (cs : List Char) (k n : Nat) (d : Char) :
    (cs.drop k).getD n d = cs.getD (k + n) d := by
  rw [List.getD_eq_getElem?_getD, List.getD_eq_getElem?_getD, List.getElem?_drop]

/-- The executable regex matcher accepts exactly the strings of the
spec's `local@domain.tld` shape. -/
theorem emailRegexTest_iff_emailShape (s : String) :
    emailRegexTest s = true ↔ EmailShape s := by
  constructor
  · intro h
    unfold emailRegexTest emailCharsMatch at h
    rw [List.any_eq_true] at h
    obtain ⟨i, hi, h⟩ := h
    rw [List.any_eq_true] at h
    obtain ⟨j, hj, h⟩ := h
    simp only [Bool.and_eq_true, decide_eq_true_eq, beq_iff_eq,
      List.all_eq_true] at h
    obtain ⟨⟨⟨⟨⟨⟨⟨h1i, h2ij⟩, h3jn⟩, hat⟩, hdot⟩, hA⟩, hB⟩, hC⟩ := h
    rw [List.mem_range] at hi hj
    have hin : i < s.data.length := by omega
    have hjn : j < s.data.length := by omega
    have hd1 := getD_decomp s.data i ' ' hin
    rw [hat] at hd1
    have hlen2 : j - (i + 1) < (s.data.drop (i + 1)).length := by
      rw [List.length_drop]
      omega
    have hd2 := getD_decomp (s.data.drop (i + 1)) (j - (i + 1)) ' ' hlen2
    rw [getD_drop, show i + 1 + (j - (i + 1)) = j from by omega, hdot,
      List.drop_drop, show i + 1 + (j - (i + 1) + 1) = j + 1 from by omega] at hd2
    refine ⟨s.data.take i, (s.data.drop (i + 1)).take (j - (i + 1)),
      s.data.drop (j + 1), ?_, ?_, ?_, ?_, ?_⟩
    · rw [← hd2]
      exact hd1
    · refine List.length_pos.mp ?_
      rw [List.length_take, List.length_drop] at *
      omega
    · refine List.length_pos.mp ?_
      rw [List.length_take, List.length_drop]
      omega
    · refine List.length_pos.mp ?_
      rw [List.length_drop]
      omega
    · intro ch hch
      rw [List.mem_append] at hch
      rcases hch with hch | hch
      · rw [List.mem_append] at hch
        rcases hch with hch | hch
        · exact (isEmailChar_iff ch).mp (hA ch hch)
        · exact (isEmailChar_iff ch).mp (hB ch hch)
      · exact (isEmailChar_iff ch).mp (hC ch hch)
  · rintro ⟨a, b, c, hcs, ha, hb, hc, hch⟩
    have hal : 1 ≤ a.length := by
      cases a with
      | nil => exact absurd rfl ha
      | cons x t => simp
    have hbl : 1 ≤ b.length := by
      cases b with
      | nil => exact absurd rfl hb
      | cons x t => simp
    have hcl : 1 ≤ c.length := by
      cases c with
      | nil => exact absurd rfl hc
      | cons x t => simp
    have hlen : s.data.length = a.length + b.length + c.length + 2 := by
      rw [hcs]
      simp only [List.length_append, List.length_cons]
      omega
    have hmemA : ∀ ch ∈ a, isEmailChar ch = true := fun ch h =>
      (isEmailChar_iff ch).mpr (hch ch (by simp [h]))
    have hmemB : ∀ ch ∈ b, isEmailChar ch = true := fun ch h =>
      (isEmailChar_iff ch).mpr (hch ch (by simp [h]))
    have hmemC : ∀ ch ∈ c, isEmailChar ch = true := fun ch h =>
      (isEmailChar_iff ch).mpr (hch ch (by simp [h]))
    unfold emailRegexTest emailCharsMatch
    rw [List.any_eq_true]
    refine ⟨a.length, List.mem_range.mpr (by omega), ?_⟩
    rw [List.any_eq_true]
    refine ⟨a.length + 1 + b.length, List.mem_range.mpr (by omega), ?_⟩
    simp only [Bool.and_eq_true, decide_eq_true_eq, beq_iff_eq,
      List.all_eq_true]
    have htake : s.data.take a.length = a := by
      rw [hcs]
      exact take_length_append a _
    have hdrop1 : s.data.drop (a.length + 1) = b ++ '.' :: c := by
      rw [hcs, show a ++ '@' :: (b ++ '.' :: c) = (a ++ ['@']) ++ (b ++ '.' :: c)
        from by simp,
        show a.length + 1 = (a ++ ['@']).length from by simp]
      exact drop_length_append _ _
    have hdrop2 : s.data.drop (a.length + 1 + b.length + 1) = c := by
      rw [hcs, show a ++ '@' :: (b ++ '.' :: c) = (a ++ '@' :: (b ++ ['.'])) ++ c
        from by simp,
        show a.length + 1 + b.length + 1 = (a ++ '@' :: (b ++ ['.'])).length
        from by simp only [List.length_append, List.length_cons,
          List.length_nil]; omega]
      exact drop_length_append _ _
    refine ⟨⟨⟨⟨⟨⟨⟨by omega, by omega⟩, by omega⟩, ?_⟩, ?_⟩, ?_⟩, ?_⟩, ?_⟩
    · rw [hcs, getD_append_length]
    · rw [hcs, show a ++ '@' :: (b ++ '.' :: c) = (a ++ '@' :: b) ++ '.' :: c
        from by simp,
        show a.length + 1 + b.length = (a ++ '@' :: b).length
        from by simp only [List.length_append, List.length_cons]; omega]
      exact getD_append_length _ _ _ _
    · rw [htake]
      exact hmemA
    · rw [hdrop1, show a.length + 1 + b.length - (a.length + 1) = b.length
        from by omega,
        show (b ++ '.' :: c).take b.length = b from take_length_append b _]
      exact hmemB
    · rw [hdrop2]
      exact hmemC

/-- With a POST method, a body whose three required fields are truthy
and the three checked environment variables truthy, the handler
reduces to the two sequential outbound calls. -/
theorem handler_main (env : Env) (b : ReqBody) (oracle : Nat → CallOutcome)
    (hn : truthy b.name = true) (he : truthy b.email = true)
    (hm : truthy b.message = true)
    (hs : truthy env.EMAILJS_SERVICE_ID = true)
    (hp : truthy env.EMAILJS_PUBLIC_KEY = true)
    (hk : truthy env.EMAILJS_PRIVATE_KEY = true) :
    handler env "POST" (some b) oracle =
      match sendEmailResult (oracle 0) with
      | .error e => (sendFailureResponse e, [notifPayload env b])
      | .ok _ =>
        match sendEmailResult (oracle 1) with
        | .error e =>
          (sendFailureResponse e, [notifPayload env b, replyPayload env b])
        | .ok _ =>
          (⟨200, .jsonSuccess true⟩, [notifPayload env b, replyPayload env b]) := by
  simp [handler, hn, he, hm, hs, hp, hk,
    show (("POST" : String) == "OPTIONS") = false from rfl,
    show (("POST" : String) == "POST") = true from rfl]

/-- C4: a POST whose body is missing or empty in any of name, email,
message is answered `400 {error: "Name, email and message are
required."}` with zero outbound calls. -/
theorem c4_missing_field_400_no_calls (env : Env) (body : Option ReqBody)
    (oracle : Nat → CallOutcome)
    (h : truthy (body.getD ReqBody.empty).name = false ∨
         truthy (body.getD ReqBody.empty).email = false ∨
         truthy (body.getD ReqBody.empty).message = false) :
    handler env "POST" body oracle =
      (⟨400, .jsonError "Name, email and message are required."⟩, []) := by
  rcases h with h | h | h <;>
    simp [handler, h,
      show (("POST" : String) == "OPTIONS") = false from rfl,
      show (("POST" : String) == "POST") = true from rfl]

theorem c4_witness :
    handler envFull "POST" (some bodyMissingName) okOracle =
      (⟨400, .jsonError "Name, email and message are required."⟩, []) :=
  c4_missing_field_400_no_calls envFull (some bodyMissingName) okOracle
    (Or.inl (by decide))

/-- C2: whenever the first outbound (notification) call fails — the
provider answers with a non-2xx status or the transport fails — the
handler issues no second call (the call list is exactly the
notification payload) and answers 500 with the generic failure
message. -/
theorem c2_first_failure_aborts (env : Env) (b : ReqBody)
    (oracle : Nat → CallOutcome)
    (hn : truthy b.name = true) (he : truthy b.email = true)
    (hm : truthy b.message = true)
    (hs : truthy env.EMAILJS_SERVICE_ID = true)
    (hp : truthy env.EMAILJS_PUBLIC_KEY = true)
    (hk : truthy env.EMAILJS_PRIVATE_KEY = true)
    (hfail : callFails (oracle 0) = true) :
    ∃ d, handler env "POST" (some b) oracle =
      (⟨500, .jsonErrorDetails "Failed to send email. Please try again." d⟩,
        [notifPayload env b]) := by
  rw [handler_main env b oracle hn he hm hs hp hk]
  cases ho : oracle 0 with
  | network msg =>
    exact ⟨msg, by simp [sendEmailResult, sendFailureResponse]⟩
  | reply st tx =>
    have hok : respOk st = false := by
      rw [ho] at hfail
      simpa [callFails] using hfail
    exact ⟨"EmailJS " ++ toString st ++ ": " ++ tx,
      by simp [sendEmailResult, hok, sendFailureResponse]⟩

theorem c2_witness :
    ∃ d, handler envFull "POST" (some bodyValid) rejectOracle =
      (⟨500, .jsonErrorDetails "Failed to send email. Please try again." d⟩,
        [notifPayload envFull bodyValid]) :=
  c2_first_failure_aborts envFull bodyValid rejectOracle
    (by decide) (by decide) (by decide) (by decide) (by decide) (by decide)
    (by decide)

/-- C3: a POST with truthy name, email and message, a fully
configured environment, and both outbound calls succeeding is
answered `200 {success:true}`, and the issued calls are exactly the
notification payload followed by the auto-reply payload; in this
sequential model the oracle is consulted at index 1 only after the
call at index 0 has resolved successfully, so the list order is the
temporal order. -/
theorem c3_success_path (env : Env) (b : ReqBody)
    (oracle : Nat → CallOutcome)
    (hn : truthy b.name = true) (he : truthy b.email = true)
    (hm : truthy b.message = true)
    (hs : truthy env.EMAILJS_SERVICE_ID = true)
    (_ht1 : truthy env.EMAILJS_NOTIFICATION_TEMPLATE_ID = true)
    (_ht2 : truthy env.EMAILJS_AUTOREPLY_TEMPLATE_ID = true)
    (hp : truthy env.EMAILJS_PUBLIC_KEY = true)
    (hk : truthy env.EMAILJS_PRIVATE_KEY = true)
    (h0 : callFails (oracle 0) = false) (h1 : callFails (oracle 1) = false) :
    handler env "POST" (some b) oracle =
      (⟨200, .jsonSuccess true⟩, [notifPayload env b, replyPayload env b]) := by
  rw [handler_main env b oracle hn he hm hs hp hk]
  cases ho : oracle 0 with
  | network msg =>
    rw [ho] at h0
    simp [callFails] at h0
  | reply st tx =>
    have hok : respOk st = true := by
      rw [ho] at h0
      simpa [callFails] using h0
    cases h1o : oracle 1 with
    | network msg =>
      rw [h1o] at h1
      simp [callFails] at h1
    | reply st1 tx1 =>
      have hok1 : respOk st1 = true := by
        rw [h1o] at h1
        simpa [callFails] using h1
      simp [sendEmailResult, hok, hok1]

theorem c3_witness :
    handler envFull "POST" (some bodyValid) okOracle =
      (⟨200, .jsonSuccess true⟩,
        [notifPayload envFull bodyValid, replyPayload envFull bodyValid]) :=
  c3_success_path envFull bodyValid okOracle
    (by decide) (by decide) (by decide) (by decide) (by decide) (by decide)
    (by decide) (by decide) (by decide) (by decide)

/-- C1: with the notification template id absent from the environment
but name, email and message present, the handler does not answer 500
and zero calls: it issues both outbound calls (the first with
`template_id` undefined) and even answers `200 {success:true}` — the
environment check tests only the service id, public key and private
key, although its own diagnostic lists all five variables as
required. -/
theorem c1_absent_template_id_not_detected :
    handler envNoNotifTpl "POST" (some bodyValid) okOracle =
      (⟨200, .jsonSuccess true⟩,
        [notifPayload envNoNotifTpl bodyValid,
         replyPayload envNoNotifTpl bodyValid])
    ∧ envNoNotifTpl.EMAILJS_NOTIFICATION_TEMPLATE_ID = none
    ∧ (notifPayload envNoNotifTpl bodyValid).template_id = none :=
  ⟨rfl, rfl, rfl⟩

/-- C5 counterexample: a submission with a whitespace-only name and a
pattern-invalid email is neither fully valid nor rejected — the
handler issues both outbound calls for it. -/
theorem c5_counterexample :
    (handler envFull "POST" (some bodyNotFullyValid) okOracle).2 =
        [notifPayload envFull bodyNotFullyValid,
         replyPayload envFull bodyNotFullyValid]
    ∧ jsTrim " " = ""
    ∧ emailRegexTest "notanemail" = false
    ∧ ¬EmailShape "notanemail" := by
  refine ⟨rfl, by decide, by decide, ?_⟩
  rintro ⟨a, b, c, hcs, -, -, -, -⟩
  have hmem : '@' ∈ "notanemail".data := by
    rw [hcs]
    simp
  exact absurd hmem (by decide)

/-- C5 amended: every submission that reaches the email API has name,
email and message present and non-empty as raw strings; submissions
failing that are rejected before any outbound call.  (The handler
neither trims the fields nor checks the email pattern, so
whitespace-only fields and pattern-invalid emails do reach the API.) -/
theorem c5_amended_calls_require_truthy_fields (env : Env) (method : String)
    (body : Option ReqBody) (oracle : Nat → CallOutcome)
    (h : (handler env method body oracle).2 ≠ []) :
    truthy (body.getD ReqBody.empty).name = true ∧
    truthy (body.getD ReqBody.empty).email = true ∧
    truthy (body.getD ReqBody.empty).message = true := by
  by_cases h1 : (method == "OPTIONS") = true
  · exact absurd (by simp [handler, h1]) h
  · by_cases h2 : (method == "POST") = true
    · refine ⟨?_, ?_, ?_⟩
      · by_contra hn
        rw [Bool.not_eq_true] at hn
        exact h (by simp [handler, h1, h2, hn])
      · by_contra hn
        rw [Bool.not_eq_true] at hn
        exact h (by simp [handler, h1, h2, hn])
      · by_contra hn
        rw [Bool.not_eq_true] at hn
        exact h (by simp [handler, h1, h2, hn])
    · exact absurd (by simp [handler, h1, h2]) h

theorem c5_witness :
    truthy ((some bodyValid).getD ReqBody.empty).name = true ∧
    truthy ((some bodyValid).getD ReqBody.empty).email = true ∧
    truthy ((some bodyValid).getD ReqBody.empty).message = true :=
  c5_amended_calls_require_truthy_fields envFull "POST" (some bodyValid)
    okOracle (by decide)

/-- C9: on the spec example (empty subject, configuration present,
both calls succeeding) the notification call carries subject
`(No subject)`, the auto-reply call carries subject `your message`,
and the response is `200 {success:true}`; in general an
absent-or-empty body subject yields exactly these two placeholder
subjects in the respective payloads. -/
theorem c9_subject_placeholders :
    (handler envFull "POST" (some bodyJo) okOracle =
        (⟨200, .jsonSuccess true⟩,
          [notifPayload envFull bodyJo, replyPayload envFull bodyJo])
      ∧ (notifPayload envFull bodyJo).template_params.subject =
          some "(No subject)"
      ∧ (replyPayload envFull bodyJo).template_params.subject =
          some "your message")
    ∧ ∀ (env : Env) (b : ReqBody), b.subject = none ∨ b.subject = some "" →
        (notifPayload env b).template_params.subject = some "(No subject)" ∧
        (replyPayload env b).template_params.subject = some "your message" := by
  refine ⟨⟨rfl, rfl, rfl⟩, ?_⟩
  rintro env b (h | h) <;> simp [notifPayload, replyPayload, jsOr, h]

theorem c9_witness :
    (notifPayload envFull bodyMissingName).template_params.subject =
        some "(No subject)" ∧
    (replyPayload envFull bodyMissingName).template_params.subject =
        some "your message" :=
  c9_subject_placeholders.2 envFull bodyMissingName (Or.inl rfl)

/-- C10: the auto-reply HTML is the fixed template chunks with the
visitor-supplied name embedded verbatim (unescaped, unsanitized) at
both name interpolation points, and the subject embedded verbatim
when non-empty, the literal `your message` when empty or absent. -/
theorem c10_autoreply_embeds_verbatim (name : String) (subject : Option String) :
    buildAutoReplyHtml name subject =
      autoReplyChunk0 ++ name ++ autoReplyChunk1 ++ name ++ autoReplyChunk2
        ++ (match subject with
            | none => "your message"
            | some s => if s = "" then "your message" else s)
        ++ autoReplyChunk3 := by
  rcases subject with _ | s
  · rfl
  · by_cases h : s = "" <;> simp [buildAutoReplyHtml, jsOr, h]

/-- C6: when the trimmed name, email and message are non-empty and
the trimmed email matches the pattern, the client issues exactly one
POST to `/api/contact` with `Content-Type: application/json` and a
JSON payload whose keys are exactly name, email, subject, message
(the fields of `SubmitPayload`) and whose values are the trimmed
field contents. -/
theorem c6_valid_single_post (f : FormFields) (orig : BtnState)
    (outcome : ServerOutcome)
    (hn : jsTrim f.name ≠ "") (he : jsTrim f.email ≠ "")
    (hm : jsTrim f.message ≠ "")
    (hp : emailRegexTest (jsTrim f.email) = true) :
    (clientSubmit f orig outcome).requests =
      [⟨"/api/contact", "POST", "application/json",
        ⟨jsTrim f.name, jsTrim f.email, jsTrim f.subject, jsTrim f.message⟩⟩] := by
  have hn2 : (jsTrim f.name == "") = false := by simpa using hn
  have he2 : (jsTrim f.email == "") = false := by simpa using he
  have hm2 : (jsTrim f.message == "") = false := by simpa using hm
  cases outcome with
  | network => simp [clientSubmit, hn2, he2, hm2, hp]
  | reply ok data =>
    by_cases hs : (ok && data.success) = true <;>
      simp [clientSubmit, hn2, he2, hm2, hp, hs]

theorem c6_witness :
    (clientSubmit ⟨" Jo ", " jo@x.com ", " Hey ", " Hi "⟩ ⟨"Send", false, ""⟩
        (.reply true ⟨true, none⟩)).requests =
      [⟨"/api/contact", "POST", "application/json",
        ⟨jsTrim " Jo ", jsTrim " jo@x.com ", jsTrim " Hey ", jsTrim " Hi "⟩⟩] :=
  c6_valid_single_post ⟨" Jo ", " jo@x.com ", " Hey ", " Hi "⟩
    ⟨"Send", false, ""⟩ (.reply true ⟨true, none⟩)
    (by decide) (by decide) (by decide) (by decide)

/-- C7: a trimmed, non-empty email that fails the pattern (with
non-empty name and message) causes no network call and an
invalid-email toast; and the client's acceptance of an email value
coincides exactly with the spec's `local@domain.tld` shape. -/
theorem c7_invalid_email_rejected :
    (∀ (f : FormFields) (orig : BtnState) (outcome : ServerOutcome),
      jsTrim f.name ≠ "" → jsTrim f.email ≠ "" → jsTrim f.message ≠ "" →
      emailRegexTest (jsTrim f.email) = false →
      (clientSubmit f orig outcome).requests = [] ∧
      (clientSubmit f orig outcome).toasts =
        [⟨"Please enter a valid email address.", "error"⟩])
    ∧ ∀ s : String, emailRegexTest s = true ↔ EmailShape s := by
  constructor
  · intro f orig outcome hn he hm hp
    have hn2 : (jsTrim f.name == "") = false := by simpa using hn
    have he2 : (jsTrim f.email == "") = false := by simpa using he
    have hm2 : (jsTrim f.message == "") = false := by simpa using hm
    constructor <;> simp [clientSubmit, hn2, he2, hm2, hp]
  · exact emailRegexTest_iff_emailShape

theorem c7_witness :
    ((clientSubmit ⟨"Jo", "bademail", "s", "Hi"⟩ ⟨"Send", false, ""⟩
        .network).requests = [] ∧
      (clientSubmit ⟨"Jo", "bademail", "s", "Hi"⟩ ⟨"Send", false, ""⟩
        .network).toasts =
        [⟨"Please enter a valid email address.", "error"⟩])
    ∧ (emailRegexTest "a@b.c" = true ↔ EmailShape "a@b.c") :=
  ⟨c7_invalid_email_rejected.1 ⟨"Jo", "bademail", "s", "Hi"⟩
      ⟨"Send", false, ""⟩ .network (by decide) (by decide) (by decide)
      (by decide),
    c7_invalid_email_rejected.2 "a@b.c"⟩

/-- C8: when a submission that passed validation fails — error body,
non-success status, or the request never completes — the client
immediately restores the submit control (original label, enabled) and
neither resets the form nor schedules the deferred reset timer, so
the form contents are preserved for retry. -/
theorem c8_failure_restores_control (f : FormFields) (orig : BtnState)
    (outcome : ServerOutcome)
    (hn : jsTrim f.name ≠ "") (he : jsTrim f.email ≠ "")
    (hm : jsTrim f.message ≠ "")
    (hp : emailRegexTest (jsTrim f.email) = true)
    (hfail : submitFailed outcome = true) :
    (clientSubmit f orig outcome).btn.label = orig.label ∧
    (clientSubmit f orig outcome).btn.disabled = false ∧
    (clientSubmit f orig outcome).formReset = false ∧
    (clientSubmit f orig outcome).pendingResetTimer = false := by
  have hn2 : (jsTrim f.name == "") = false := by simpa using hn
  have he2 : (jsTrim f.email == "") = false := by simpa using he
  have hm2 : (jsTrim f.message == "") = false := by simpa using hm
  cases outcome with
  | network => simp [clientSubmit, hn2, he2, hm2, hp]
  | reply ok data =>
    have hs : (ok && data.success) = false := by
      have h0 : (!(ok && data.success)) = true := hfail
      cases hb : (ok && data.success)
      · rfl
      · rw [hb] at h0
        exact absurd h0 (by decide)
    simp [clientSubmit, hn2, he2, hm2, hp, hs]

theorem c8_witness :
    (clientSubmit ⟨"Jo", "jo@x.com", "s", "Hi"⟩ ⟨"Send", false, ""⟩
        (.reply false ⟨false, some "boom"⟩)).btn.label =
      (⟨"Send", false, ""⟩ : BtnState).label ∧
    (clientSubmit ⟨"Jo", "jo@x.com", "s", "Hi"⟩ ⟨"Send", false, ""⟩
        (.reply false ⟨false, some "boom"⟩)).btn.disabled = false ∧
    (clientSubmit ⟨"Jo", "jo@x.com", "s", "Hi"⟩ ⟨"Send", false, ""⟩
        (.reply false ⟨false, some "boom"⟩)).formReset = false ∧
    (clientSubmit ⟨"Jo", "jo@x.com", "s", "Hi"⟩ ⟨"Send", false, ""⟩
        (.reply false ⟨false, some "boom"⟩)).pendingResetTimer = false :=
  c8_failure_restores_control ⟨"Jo", "jo@x.com", "s", "Hi"⟩
    ⟨"Send", false, ""⟩ (.reply false ⟨false, some "boom"⟩)
    (by decide) (by decide) (by decide) (by decide) (by decide)
